import Mathlib

/-!
Verification of the legal-document RAG pipeline (law_pro_llm/legal-ai-complete).

Shallow embedding of the Python sources:
  * `app/config.py`               — configuration constants
  * `ingestion/text_cleaner.py`   — `TextCleaner` (regex pipeline over Unicode text)
  * `ingestion/file_loader.py`    — `FileLoader.clean_chunks`
  * `vector_store/vector_db_manager.py` — `VectorDBManager` (Chroma adapter)
  * `vector_store/retriever.py`   — `LegalRetriever`
  * `app/engine.py`               — `LegalAIEngine.chat` / `summarize`

Text is embedded as `List Char`; Python regex substitutions are embedded as
specialized total matchers reproducing `re.sub` semantics (leftmost match,
greedy with backtracking, MULTILINE anchors) for the concrete patterns that
occur in the source.  The external Chroma backend and the Ollama LLM are
parameters of the embedded functions; failure of a backend call (a raised
exception caught by the source's `try/except`) is modelled by a `fail : Bool`
flag or by an `Except`-valued invocation function.
-/

namespace LegalAI

/-! ### app/config.py -/

/-- `NUM_RELEVANT_DOCS = 4` (app/config.py line 53). -/
def NUM_RELEVANT_DOCS : Nat := 4

/-- `RETRIEVAL_THRESHOLD = 0.3` (app/config.py line 54).  Scores are embedded
as rationals. -/
def RETRIEVAL_THRESHOLD : ℚ := 3 / 10

/-- Python `x or d` defaulting for an optional integer argument: `None` and
the falsy value `0` are both replaced by the default. -/
def pyOrNat (x : Option Nat) (d : Nat) : Nat :=
  match x with
  | none => d
  | some v => if v = 0 then d else v

/-- Python `x or d` defaulting for an optional float argument: `None` and the
falsy value `0.0` are both replaced by the default. -/
def pyOrQ (x : Option ℚ) (d : ℚ) : ℚ :=
  match x with
  | none => d
  | some v => if v = 0 then d else v

/-! ### ingestion/text_cleaner.py — character classes -/

/-- Python regex `\s` / `str.strip()` whitespace on `str`: the Unicode
whitespace characters. -/
def isPySpace (c : Char) : Bool :=
  let n := c.toNat
  n == 0x20 || n == 0x9 || n == 0xa || n == 0xb || n == 0xc || n == 0xd ||
  (0x1c ≤ n && n ≤ 0x1f) || n == 0x85 || n == 0xa0 || n == 0x1680 ||
  (0x2000 ≤ n && n ≤ 0x200a) || n == 0x2028 || n == 0x2029 || n == 0x202f ||
  n == 0x205f || n == 0x3000

/-- Python regex `\d` on `str` matches any Unicode decimal digit (category Nd).
We cover the ASCII and Thai digit blocks, the only decimal-digit blocks that
arise in this application's Thai/English legal documents. -/
def isPyDigit (c : Char) : Bool :=
  c.isDigit || (0x0E50 ≤ c.toNat && c.toNat ≤ 0x0E59)

/-- `(l.dropWhile p).length ≤ l.length` (termination helper). -/
theorem dropWhileLenLe {α : Type} (p : α → Bool) :
    ∀ l : List α, (l.dropWhile p).length ≤ l.length := by
  intro l
  induction l with
  | nil => simp [List.dropWhile]
  | cons a l ih =>
    rw [List.dropWhile]
    split
    · exact Nat.le_trans ih (Nat.le_succ _)
    · exact Nat.le_refl _

/-- Python `str.strip()`: drop leading and trailing whitespace. -/
def stripList (t : List Char) : List Char :=
  ((t.dropWhile isPySpace).reverse.dropWhile isPySpace).reverse

/-- Python `str.split('\n')`. -/
def splitNL : List Char → List (List Char)
  | [] => [[]]
  | c :: rest =>
    let r := splitNL rest
    if c == '\n' then [] :: r
    else
      match r with
      | [] => [[c]]
      | l :: ls => (c :: l) :: ls

/-- Python `'\n'.join(lines)`. -/
def joinNL : List (List Char) → List Char
  | [] => []
  | [l] => l
  | l :: ls => l ++ '\n' :: joinNL ls

/-- Worker of `collapseRuns`, structurally recursive on a fuel bound so the
kernel can evaluate it: every step consumes at least one character, so any
fuel of at least the input length makes the fuel-exhausted fallback
unreachable. -/
def collapseRunsGo (p : Char → Bool) (m : Nat) (repl : List Char) :
    Nat → List Char → List Char
  | _, [] => []
  | 0, t => t
  | fuel + 1, c :: rest =>
    if p c then
      (if m ≤ (rest.takeWhile p).length + 1 then repl else c :: rest.takeWhile p)
        ++ collapseRunsGo p m repl fuel (rest.dropWhile p)
    else c :: collapseRunsGo p m repl fuel rest

/-- `re.sub(X{m,}, repl, t)` for a single-character class `X`: every maximal
run of characters satisfying `p` whose length is at least `m` is replaced by
`repl`; shorter runs are kept.  (With `m = 1` this is `re.sub(X+, repl, t)`.) -/
def collapseRuns (p : Char → Bool) (m : Nat) (repl : List Char)
    (t : List Char) : List Char :=
  collapseRunsGo p m repl t.length t

/-- `re.sub` of a literal two-character pattern `a b` by the single character
`r`: non-overlapping replacement, left to right. -/
def replace2 (a b r : Char) : List Char → List Char
  | [] => []
  | [c] => [c]
  | c :: d :: rest =>
    if c = a ∧ d = b then r :: replace2 a b r rest
    else c :: replace2 a b r (d :: rest)

/-! ### text_cleaner.py — `remove_special_chars`, `fix_common_ocr_errors` -/

/-- `remove_special_chars`: the three sequential substitutions
`re.sub('\x00', '')`, `re.sub('\x0c', '')`, `re.sub('\r', '')`
(text_cleaner.py lines 40-52, patterns from lines 26-30). -/
def remove_special_chars (t : List Char) : List Char :=
  (((t.filter (fun c => c.toNat != 0x00)).filter
      (fun c => c.toNat != 0x0c)).filter (fun c => c.toNat != 0x0d))

/-- Thai characters appearing in the OCR fix table. -/
def thaiNikhahit : Char := Char.ofNat 0x0E4D
/-- U+0E32 THAI CHARACTER SARA AA. -/
def thaiSaraAa : Char := Char.ofNat 0x0E32
/-- U+0E33 THAI CHARACTER SARA AM. -/
def thaiSaraAm : Char := Char.ofNat 0x0E33
/-- U+0E40 THAI CHARACTER SARA E. -/
def thaiSaraE : Char := Char.ofNat 0x0E40
/-- U+0E41 THAI CHARACTER SARA AE. -/
def thaiSaraAe : Char := Char.ofNat 0x0E41

/-- `fix_common_ocr_errors` (text_cleaner.py lines 73-92): first replace the
two-character sequence U+0E4D U+0E32 by U+0E33, then the sequence
U+0E40 U+0E40 by U+0E41. -/
def fix_common_ocr_errors (t : List Char) : List Char :=
  replace2 thaiSaraE thaiSaraE thaiSaraAe
    (replace2 thaiNikhahit thaiSaraAa thaiSaraAm t)

/-! ### text_cleaner.py — MULTILINE `re.sub` machinery

The patterns of `remove_page_numbers` / `remove_headers_footers` are all of
the shape `^ … \s* $` with `re.MULTILINE`.  `^` matches at position 0 or right
after a `'\n'`; `$` matches at the end of the string or right before a `'\n'`;
`\s` also matches `'\n'`, so a greedy trailing `\s*$` consumes the longest
whitespace prefix of the remainder after which the position is end-of-string
or sits on a `'\n'`.  `re.sub` deletes the leftmost match and resumes scanning
at the first position after it. -/

/-- `$` of `re.MULTILINE` holds at this position: end of string or a `'\n'`. -/
def atEol : List Char → Bool
  | [] => true
  | c :: _ => c == '\n'

/-- Greedy resolution of a trailing `\s*$` against `t`, trying the longest
whitespace prefix first: returns the number of characters consumed. -/
def endWSAux (t : List Char) : Nat → Option Nat
  | 0 => if atEol t then some 0 else none
  | j + 1 => if atEol (t.drop (j + 1)) then some (j + 1) else endWSAux t j

/-- Match `\s*$` greedily at the start of `t` (`none` when `$` cannot hold). -/
def endWS (t : List Char) : Option Nat :=
  endWSAux t (t.takeWhile isPySpace).length

/-- Matcher for `^\d{1,3}\s*$` at a line start (anchors aside): a maximal
digit run of length 1–3 followed by `\s*$`.  A run of 4 or more digits cannot
match (after backtracking the next character is still a digit). -/
def matchBareNumber (t : List Char) : Option Nat :=
  let d := (t.takeWhile isPyDigit).length
  if d = 0 ∨ 3 < d then none
  else
    match endWS (t.drop d) with
    | some j => some (d + j)
    | none => none

/-- Matcher for `^\s*หน้า\s*\d+\s*$` at a line start: leading whitespace (the
greedy `\s*` must stop exactly at the first non-whitespace character, which
must begin the literal), the four Thai characters U+0E2B U+0E19 U+0E49 U+0E32,
interior whitespace, a nonempty digit run, then `\s*$`. -/
def matchThaiPage (t : List Char) : Option Nat :=
  let w1 := (t.takeWhile isPySpace).length
  match t.drop w1 with
  | c1 :: c2 :: c3 :: c4 :: t2 =>
    if c1 = Char.ofNat 0x0E2B ∧ c2 = Char.ofNat 0x0E19 ∧
       c3 = Char.ofNat 0x0E49 ∧ c4 = Char.ofNat 0x0E32 then
      let w2 := (t2.takeWhile isPySpace).length
      let t3 := t2.drop w2
      let d := (t3.takeWhile isPyDigit).length
      if d = 0 then none
      else
        match endWS (t3.drop d) with
        | some j => some (w1 + 4 + w2 + d + j)
        | none => none
    else none
  | _ => none

/-- Matcher for `^\s*Page\s*\d+\s*$` with `re.IGNORECASE` at a line start. -/
def matchEngPage (t : List Char) : Option Nat :=
  let w1 := (t.takeWhile isPySpace).length
  match t.drop w1 with
  | c1 :: c2 :: c3 :: c4 :: t2 =>
    if c1.toLower = 'p' ∧ c2.toLower = 'a' ∧ c3.toLower = 'g' ∧ c4.toLower = 'e' then
      let w2 := (t2.takeWhile isPySpace).length
      let t3 := t2.drop w2
      let d := (t3.takeWhile isPyDigit).length
      if d = 0 then none
      else
        match endWS (t3.drop d) with
        | some j => some (w1 + 4 + w2 + d + j)
        | none => none
    else none
  | _ => none

/-- Matcher for `^\s*-\s*\d+\s*-\s*$` at a line start (footer `- 1 -`). -/
def matchDashFooter (t : List Char) : Option Nat :=
  let w1 := (t.takeWhile isPySpace).length
  match t.drop w1 with
  | c1 :: t2 =>
    if c1 = '-' then
      let w2 := (t2.takeWhile isPySpace).length
      let t3 := t2.drop w2
      let d := (t3.takeWhile isPyDigit).length
      if d = 0 then none
      else
        let t4 := t3.drop d
        let w3 := (t4.takeWhile isPySpace).length
        match t4.drop w3 with
        | c5 :: t6 =>
          if c5 = '-' then
            match endWS t6 with
            | some j => some (w1 + 1 + w2 + d + w3 + 1 + j)
            | none => none
          else none
        | [] => none
    else none
  | [] => none

/-- Matcher for `^\s*\[\s*\d+\s*\]\s*$` at a line start (footer `[ 1 ]`). -/
def matchBracketFooter (t : List Char) : Option Nat :=
  let w1 := (t.takeWhile isPySpace).length
  match t.drop w1 with
  | c1 :: t2 =>
    if c1 = '[' then
      let w2 := (t2.takeWhile isPySpace).length
      let t3 := t2.drop w2
      let d := (t3.takeWhile isPyDigit).length
      if d = 0 then none
      else
        let t4 := t3.drop d
        let w3 := (t4.takeWhile isPySpace).length
        match t4.drop w3 with
        | c5 :: t6 =>
          if c5 = ']' then
            match endWS t6 with
            | some j => some (w1 + 1 + w2 + d + w3 + 1 + j)
            | none => none
          else none
        | [] => none
    else none
  | [] => none

/-- Driver for `re.sub(pattern, '', text, flags=re.MULTILINE)` with a
`^`-anchored matcher `m` (which reports the match length at a line start):
scan left to right, delete each leftmost match, resume after it; `bol` records
whether `^` holds at the current position (position 0 or the previous
character of the original string was `'\n'`).  Our matchers never return a
zero length; the guard on `0` is only for termination. -/
def subLinesGo (m : List Char → Option Nat) :
    Nat → Bool → List Char → List Char
  | _, _, [] => []
  | 0, _, t => t
  | fuel + 1, bol, c :: rest =>
    if bol then
      match m (c :: rest) with
      | some n =>
        if n = 0 then c :: subLinesGo m fuel (c == '\n') rest
        else
          subLinesGo m fuel ((((c :: rest).drop (n - 1)).head? == some '\n'))
            ((c :: rest).drop n)
      | none => c :: subLinesGo m fuel (c == '\n') rest
    else c :: subLinesGo m fuel (c == '\n') rest

/-- `re.sub(pattern, '', text, flags=re.MULTILINE)` for a `^…$` pattern.
(The fuel bound `t.length` of the worker is never exhausted: every step of
the scan consumes at least one character.) -/
def subLines (m : List Char → Option Nat) (t : List Char) : List Char :=
  subLinesGo m t.length true t

/-- `remove_page_numbers` (text_cleaner.py lines 94-109): the three MULTILINE
substitutions, in source order. -/
def remove_page_numbers (t : List Char) : List Char :=
  subLines matchEngPage (subLines matchThaiPage (subLines matchBareNumber t))

/-- `remove_headers_footers` (text_cleaner.py lines 111-130): the two
MULTILINE footer substitutions, in source order. -/
def remove_headers_footers (t : List Char) : List Char :=
  subLines matchBracketFooter (subLines matchDashFooter t)

/-! ### text_cleaner.py — `normalize_whitespace`, `clean` -/

/-- The character class `[ \t]`. -/
def isSpaceTab (c : Char) : Bool := c == ' ' || c == '\t'

/-- `normalize_whitespace` (text_cleaner.py lines 54-71): the four
substitutions of `patterns_to_replace` in order — `[ \t]+` to one space,
`\n{3,}` to two newlines, `\.{4,}` to three dots, `-{3,}` to three dashes —
then split into lines, strip each line, and re-join with `'\n'`. -/
def normalize_whitespace (t : List Char) : List Char :=
  let t1 := collapseRuns isSpaceTab 1 [' '] t
  let t2 := collapseRuns (fun c => c == '\n') 3 ['\n', '\n'] t1
  let t3 := collapseRuns (fun c => c == '.') 4 ['.', '.', '.'] t2
  let t4 := collapseRuns (fun c => c == '-') 3 ['-', '-', '-'] t3
  joinNL ((splitNL t4).map stripList)

/-- `TextCleaner.clean` (text_cleaner.py lines 132-167): empty input maps to
the empty string; otherwise remove special characters, optionally fix OCR
errors, optionally remove page numbers and headers/footers, normalize
whitespace, and strip the result. -/
def clean (removePageNums fixOcr : Bool) (t : List Char) : List Char :=
  if t.isEmpty then []
  else
    let t1 := remove_special_chars t
    let t2 := if fixOcr then fix_common_ocr_errors t1 else t1
    let t3 :=
      if removePageNums then remove_headers_footers (remove_page_numbers t2)
      else t2
    stripList (normalize_whitespace t3)

/-- `clean` with its default flags (`remove_page_numbers=True, fix_ocr=True`). -/
def cleanDefault (t : List Char) : List Char := clean true true t

/-- `TextCleaner.clean` lifted to `String` (a Lean `String` wraps a
`List Char`). -/
def cleanString (s : String) : String := String.mk (cleanDefault s.data)

/-! ### Data model -/

/-- A LangChain `Document` as used by this pipeline: `page_content` plus the
two metadata entries the code reads.  `metadata.get("source", "unknown")` and
`metadata.get("page", "?")` are modelled by `Option` fields (`none` = key
absent); the page value is stored in its `str()` rendering, which is all the
code ever uses of it. -/
structure LDoc where
  content : String
  source : Option String
  page : Option String
deriving DecidableEq

/-- A record of the Chroma collection: a stored chunk's backend id together
with its `source` metadata value (`none` = no `source` key).  Chroma assigns
every stored chunk a distinct id. -/
structure Entry where
  id : Nat
  source : Option String
deriving DecidableEq

/-! ### vector_store/vector_db_manager.py

The Chroma backend is a parameter: `backend : String → Nat → List LDoc`
(query text and `k` to ranked results).  A backend exception caught by the
source's `try/except` is modelled by the `fail : Bool` flag. -/

/-- `VectorDBManager.add_documents` (lines 70-98): empty input is a no-op
returning 0; a backend failure leaves the collection unchanged and returns 0;
otherwise the chunks are stored under fresh ids and the call returns how many
were added.  (Fresh ids are modelled as `db.length + i`; only their
distinctness matters.) -/
def add_documents (fail : Bool) (db : List Entry) (docs : List LDoc) :
    List Entry × Nat :=
  if docs.isEmpty then (db, 0)
  else if fail then (db, 0)
  else
    (db ++ ((List.range docs.length).zip docs).map
        (fun p => { id := db.length + p.1, source := p.2.source }),
      docs.length)

/-- `VectorDBManager.similarity_search` (lines 100-125): resolve `k` by
`k or NUM_RELEVANT_DOCS`, then query the backend; a backend failure yields
the empty list. -/
def similarity_search (fail : Bool) (backend : String → Nat → List LDoc)
    (query : String) (k : Option Nat) : List LDoc :=
  let k2 := pyOrNat k NUM_RELEVANT_DOCS
  if fail then [] else backend query k2

/-- `VectorDBManager.similarity_search_with_score` (lines 127-145): as
`similarity_search` but the backend surfaces the cosine distance of each
result (embedded as `ℚ`). -/
def similarity_search_with_score (fail : Bool)
    (backend : String → Nat → List (LDoc × ℚ)) (query : String)
    (k : Option Nat) : List (LDoc × ℚ) :=
  let k2 := pyOrNat k NUM_RELEVANT_DOCS
  if fail then [] else backend query k2

/-- `VectorDBManager.get_document_count` (lines 160-171): collection count,
0 on failure. -/
def get_document_count (fail : Bool) (db : List Entry) : Nat :=
  if fail then 0 else db.length

/-- `VectorDBManager.get_all_sources` (lines 173-191): the distinct `source`
metadata values of the stored chunks (entries without the key contribute
nothing); the empty collection of sources on failure. -/
def get_all_sources (fail : Bool) (db : List Entry) : List String :=
  if fail then [] else (db.filterMap (fun e => e.source)).dedup

/-- The entries of the collection whose `source` metadata equals `name`
(Chroma `where={"source": name}`: exact, case-sensitive equality). -/
def matchingEntries (db : List Entry) (name : String) : List Entry :=
  db.filter (fun e => decide (e.source = some name))

/-- `VectorDBManager.delete_by_source` (lines 193-221): fetch the ids whose
`source` equals `source_name` exactly, return `false` if there are none,
otherwise delete those ids and return `true`; a backend failure is caught and
reported as `false`. -/
def delete_by_source (fail : Bool) (db : List Entry) (source_name : String) :
    List Entry × Bool :=
  if fail then (db, false)
  else
    let ids := (matchingEntries db source_name).map (fun e => e.id)
    if ids.isEmpty then (db, false)
    else (db.filter (fun e => !(ids.contains e.id)), true)

/-! ### vector_store/retriever.py -/

/-- `LegalRetriever.retrieve` (lines 41-53): `k = k or self.default_k`
(where `default_k = NUM_RELEVANT_DOCS`), then `similarity_search`. -/
def retrieve (fail : Bool) (backend : String → Nat → List LDoc)
    (query : String) (k : Option Nat) : List LDoc :=
  similarity_search fail backend query (some (pyOrNat k NUM_RELEVANT_DOCS))

/-- `LegalRetriever.retrieve_with_scores` (lines 55-67). -/
def retrieve_with_scores (fail : Bool)
    (backend : String → Nat → List (LDoc × ℚ)) (query : String)
    (k : Option Nat) : List (LDoc × ℚ) :=
  similarity_search_with_score fail backend query
    (some (pyOrNat k NUM_RELEVANT_DOCS))

/-- `LegalRetriever.retrieve_relevant` (lines 69-96): default `k` and
`threshold` by Python `or` (so a threshold of `0.0` falls back to
`RETRIEVAL_THRESHOLD = 0.3`), then keep, in order, the documents whose
distance satisfies `score < 2 - threshold`. -/
def retrieve_relevant (fail : Bool)
    (backend : String → Nat → List (LDoc × ℚ)) (query : String)
    (k : Option Nat) (threshold : Option ℚ) : List LDoc :=
  let t := pyOrQ threshold RETRIEVAL_THRESHOLD
  let results := retrieve_with_scores fail backend query k
  (results.filter (fun p => decide (p.2 < 2 - t))).map (fun p => p.1)

/-- The 50-character rule string `"─" * 50` of `format_context`
(U+2500 BOX DRAWINGS LIGHT HORIZONTAL). -/
def ruleLine : String := String.mk (List.replicate 50 (Char.ofNat 0x2500))

/-- One labeled block of `format_context`:
`f"[เอกสาร {i}: {source} | หน้า {page}]\n{doc.page_content}"` with metadata
defaults `"unknown"` and `"?"`. -/
def docLabel (i : Nat) (d : LDoc) : String :=
  "[เอกสาร " ++ toString i ++ ": " ++ d.source.getD "unknown" ++ " | หน้า "
    ++ d.page.getD "?" ++ "]\n" ++ d.content

/-- The blocks of `format_context`, numbered from 1 (`enumerate(docs, 1)`). -/
def contextParts (i : Nat) : List LDoc → List String
  | [] => []
  | d :: rest => docLabel i d :: contextParts (i + 1) rest

/-- Python `sep.join(parts)`. -/
def joinSep (sep : String) : List String → String
  | [] => ""
  | [s] => s
  | s :: rest => s ++ sep ++ joinSep sep rest

/-- `LegalRetriever.format_context` (lines 98-120): empty input yields the
empty string; otherwise the source line
`return "\n\n" + "─" * 50 + "\n\n".join(context_parts)` — by Python operator
precedence the rule string is *prepended once* (glued to the first block) and
the blocks are joined by the bare separator `"\n\n"`. -/
def format_context (docs : List LDoc) : String :=
  if docs.isEmpty then ""
  else "\n\n" ++ ruleLine ++ joinSep "\n\n" (contextParts 1 docs)

/-- `LegalRetriever.has_documents` (lines 180-187): `count > 0`. -/
def has_documents (fail : Bool) (db : List Entry) : Bool :=
  decide (0 < get_document_count fail db)

/-! ### ingestion/file_loader.py -/

/-- `FileLoader.clean_chunks` (lines 155-172): clean each chunk's content with
`TextCleaner.clean`; keep the chunk (with its cleaned content) only when the
cleaned content is non-empty after stripping — whitespace-only chunks are
dropped.  `LegalAIEngine.ingest_file` passes exactly this list (via
`load_and_split`, `process_file`) to `VectorDBManager.add_documents`. -/
def clean_chunks : List LDoc → List LDoc
  | [] => []
  | c :: rest =>
    let cleaned := cleanString c.content
    if (stripList cleaned.data).isEmpty then clean_chunks rest
    else { c with content := cleaned } :: clean_chunks rest

/-! ### llm/prompt_templates.py (module absent from the sources) -/

/-- Modelled from the spec: `NO_CONTEXT_PROMPT` of the missing module
`llm/prompt_templates.py` — the fixed, localized "no documents" message the
chat flow returns when the index is empty.  Only its being a constant,
independent of the question, matters below. -/
def NO_CONTEXT_PROMPT : String :=
  "ยังไม่มีเอกสารในระบบ กรุณาอัปโหลดเอกสารก่อนถามคำถาม"

/-- Modelled from the spec: `LOW_RELEVANCE_PROMPT.format(question=question)`
of the missing module `llm/prompt_templates.py` — a fixed
"couldn't find relevant info" message templated with the exact question. -/
def lowRelevanceMessage (question : String) : String :=
  "ไม่พบข้อมูลที่เกี่ยวข้องกับคำถาม: " ++ question

/-- Modelled from the spec: the fixed safety/disclaimer suffix that
`format_response_with_disclaimer` of the missing module
`llm/prompt_templates.py` appends to the raw model output. -/
def DISCLAIMER_SUFFIX : String :=
  "\n\n⚠️ คำตอบนี้เป็นการวิเคราะห์เบื้องต้น ไม่ใช่คำแนะนำทางกฎหมาย"

/-- Modelled from the spec: `format_response_with_disclaimer` — append the
fixed disclaimer suffix to the raw model output. -/
def format_response_with_disclaimer (response : String) : String :=
  response ++ DISCLAIMER_SUFFIX

/-! ### app/engine.py

The language model is a parameter `invoke : Nat → Except String String`
mapping the (0-based) attempt number to the invocation's outcome: `.ok text`,
or `.error msg` for a raised exception whose message is `msg`.  The engine's
observable behaviour is the returned result dictionary plus a trace of the
number of invocation attempts and the list of `time.sleep` pauses (seconds). -/

/-- The chat result dictionary.  Python builds dictionaries with different
key sets on different paths; a key that a path omits is `none`
(`has_context` is absent from the exception path, `num_sources` only present
on success, `error` only on failure paths). -/
structure ChatResult where
  success : Bool
  answer : String
  sources : List (String × String)
  has_context : Option Bool
  num_sources : Option Nat
  error : Option String
deriving DecidableEq

/-- The retry loop of `LegalAIEngine.chat` (engine.py lines 217-232):
`for attempt in range(max_retries)` with `time.sleep(3)` between failed
attempts and a re-raise after the last one.  Returns
(attempts made, sleep pauses, final outcome); `remaining` starts at
`max_retries = 3`. -/
def retryLoop (invoke : Nat → Except String String) (attempt : Nat) :
    Nat → Nat × List Nat × Except String String
  | 0 => (0, [], Except.error "")
  | r + 1 =>
    match invoke attempt with
    | Except.ok s => (1, [], Except.ok s)
    | Except.error e =>
      if r = 0 then (1, [], Except.error e)
      else
        let rec2 := retryLoop invoke (attempt + 1) r
        (rec2.1 + 1, 3 :: rec2.2.1, rec2.2.2)

/-- The prefix of the engine's exception-path answers:
`f"❌ เกิดข้อผิดพลาด: {str(e)}"`. -/
def errAnswer (e : String) : String := "❌ เกิดข้อผิดพลาด: " ++ e

/-- `LegalAIEngine.chat` (engine.py lines 146-253).  `docCount` is what
`get_document_count` reports (so `has_documents` is `0 < docCount`);
`backend` is the vector index consulted through `LegalRetriever.retrieve`
with `k=NUM_RELEVANT_DOCS`.  Returns the result dictionary, the number of
LLM invocation attempts, and the sleep pauses. -/
def chat (docCount : Nat) (backend : String → Nat → List LDoc)
    (invoke : Nat → Except String String) (question : String) :
    ChatResult × Nat × List Nat :=
  if 0 < docCount then
    let docs := retrieve false backend question (some NUM_RELEVANT_DOCS)
    if docs.isEmpty then
      (⟨false, lowRelevanceMessage question, [], some false, none, none⟩, 0, [])
    else
      let sources := docs.map
        (fun d => (d.source.getD "unknown", d.page.getD "?"))
      let _context := format_context docs
      match retryLoop invoke 0 3 with
      | (n, sleeps, Except.ok response) =>
        (⟨true, format_response_with_disclaimer response, sources, some true,
            some sources.length, none⟩, n, sleeps)
      | (n, sleeps, Except.error e) =>
        (⟨false, errAnswer e, [], none, none, some e⟩, n, sleeps)
  else
    (⟨false, NO_CONTEXT_PROMPT, [], some false, none, none⟩, 0, [])

/-- The summarize result dictionary (key sets as in `chat`). -/
structure SummResult where
  success : Bool
  summary : String
  sources : List String
  num_chunks_used : Option Nat
  error : Option String
deriving DecidableEq

/-- The fixed Thai query `LegalAIEngine.summarize` builds (engine.py lines
284-287): "summarize {source}" or "summarize the whole document". -/
def summaryQuery : Option String → String
  | some s => "สรุปเนื้อหาทั้งหมดของ " ++ s
  | none => "สรุปเนื้อหาทั้งหมดของเอกสาร"

/-- `LegalAIEngine.summarize` (engine.py lines 272-325): build the fixed
query, retrieve with the literal `k=10`, and — when chunks were found —
invoke the model exactly once (no retry loop); on success the de-duplicated
(`list(set(...))`) source names of the retrieved chunks are returned.
Returns the result dictionary, the number of LLM invocation attempts, and
the `k` passed to `retrieve`. -/
def summarize (backend : String → Nat → List LDoc)
    (invoke : Nat → Except String String) (source_name : Option String) :
    SummResult × Nat × Nat :=
  let query := summaryQuery source_name
  let kArg : Nat := 10
  let docs := retrieve false backend query (some kArg)
  if docs.isEmpty then
    (⟨false, "⚠️ ไม่พบเอกสารที่จะสรุป", [], none, none⟩, 0, kArg)
  else
    let _context := format_context docs
    match invoke 0 with
    | Except.ok s =>
      (⟨true, s, (docs.map (fun d => d.source.getD "unknown")).dedup,
          some docs.length, none⟩, 1, kArg)
    | Except.error e =>
      (⟨false, errAnswer e, [], none, some e⟩, 1, kArg)

/-! ## Claims -/

/-- C4: for every question, `chat` on an index holding zero documents returns
the fixed no-context result — `success = false`, `has_context = false`, empty
sources list, the fixed no-documents message — with no LLM attempt and no
pause, and two runs with different questions return identical results. -/
theorem claim_C4_no_context_determinism :
    ∀ (backend : String → Nat → List LDoc)
      (invoke : Nat → Except String String) (q1 q2 : String),
      chat 0 backend invoke q1
          = (⟨false, NO_CONTEXT_PROMPT, [], some false, none, none⟩, 0, [])
        ∧ chat 0 backend invoke q1 = chat 0 backend invoke q2 := by
  intro backend invoke q1 q2
  exact ⟨rfl, rfl⟩

/-- C8: the index adapter degrades instead of raising — `add_documents` on an
empty chunk list is a no-op returning 0 (for either backend outcome) and
returns 0 on backend failure; `similarity_search` returns `[]` on failure;
`get_document_count` returns 0 on failure; `get_all_sources` returns the
empty collection on failure. -/
theorem claim_C8_adapter_never_raises :
    ∀ (fl : Bool) (db : List Entry) (docs : List LDoc)
      (backend : String → Nat → List LDoc) (q : String) (k : Option Nat),
      add_documents fl db [] = (db, 0)
        ∧ (add_documents true db docs).2 = 0
        ∧ similarity_search true backend q k = []
        ∧ get_document_count true db = 0
        ∧ get_all_sources true db = [] := by
  intro fl db docs backend q k
  refine ⟨rfl, ?_, rfl, rfl, rfl⟩
  cases docs <;> simp [add_documents]

/-- C10: a falsy `k` (`0`, like an omitted `k`) is replaced by the default
`k = 4`, for `retrieve` and for `retrieve_with_scores`: the call with `k = 0`
equals the call with `k` unspecified, and both forward `k = 4` to the index —
a caller cannot request exactly zero chunks through this interface. -/
theorem claim_C10_k_zero_falls_back_to_default :
    ∀ (backend : String → Nat → List LDoc)
      (backendS : String → Nat → List (LDoc × ℚ)) (q : String),
      retrieve false backend q (some 0) = retrieve false backend q none
        ∧ retrieve false backend q (some 0) = backend q 4
        ∧ retrieve_with_scores false backendS q (some 0)
            = retrieve_with_scores false backendS q none
        ∧ retrieve_with_scores false backendS q (some 0) = backendS q 4 := by
  intro backend backendS q
  exact ⟨rfl, rfl, rfl, rfl⟩

/-- C3 (evaluation at the failing input): `format_context` on two chunks and
on one chunk.  By Python operator precedence,
`"\n\n" + "─" * 50 + "\n\n".join(context_parts)` prepends the 50-character
rule once — glued directly to the first block's label, with no newline in
between — and joins the blocks by a bare `"\n\n"`; the blocks are *not*
separated from each other by the rule line, so the output differs from the
claim's shape both for two chunks and for one chunk.  The empty-input clause
of the claim does hold. -/
theorem claim_C3_format_context_eval :
    format_context [⟨"X", some "a.pdf", some "1"⟩, ⟨"Y", some "b.pdf", some "2"⟩]
        = "\n\n" ++ ruleLine
            ++ "[เอกสาร 1: a.pdf | หน้า 1]\nX\n\n[เอกสาร 2: b.pdf | หน้า 2]\nY"
      ∧ format_context [⟨"X", some "a.pdf", some "1"⟩,
            ⟨"Y", some "b.pdf", some "2"⟩]
          ≠ joinSep ("\n\n" ++ ruleLine ++ "\n\n")
              [docLabel 1 ⟨"X", some "a.pdf", some "1"⟩,
               docLabel 2 ⟨"Y", some "b.pdf", some "2"⟩]
      ∧ format_context [⟨"X", some "a.pdf", some "1"⟩]
          ≠ docLabel 1 ⟨"X", some "a.pdf", some "1"⟩
      ∧ format_context [] = "" := by
  refine ⟨rfl, ?_, ?_, rfl⟩ <;> decide

/-- C2 (evaluation at the failing input): `clean` with default flags is not
idempotent.  On `"a\n \n \nb"` the newline-collapsing substitution
(`\n{3,}` to `\n\n`) runs before the per-line stripping that turns the two
space-only lines into empty lines, so the first pass returns `"a\n\n\nb"`
with an un-collapsed triple newline — which a second pass collapses to
`"a\n\nb"`. -/
theorem claim_C2_clean_not_idempotent_eval :
    cleanDefault ['a', '\n', ' ', '\n', ' ', '\n', 'b']
        = ['a', '\n', '\n', '\n', 'b']
      ∧ cleanDefault ['a', '\n', '\n', '\n', 'b'] = ['a', '\n', '\n', 'b']
      ∧ cleanDefault (cleanDefault ['a', '\n', ' ', '\n', ' ', '\n', 'b'])
          ≠ cleanDefault ['a', '\n', ' ', '\n', ' ', '\n', 'b'] := by
  refine ⟨?_, ?_, ?_⟩ <;> decide

/-- C1 (counterexample): the claim "`retrieve_relevant` keeps a chunk iff its
distance < 2 − similarity_threshold" fails at `similarity_threshold = 0.0`:
for a fixed index result of one chunk at distance 9/5 < 2 − 0, the chunk is
*not* kept, because Python's `threshold or self.threshold` treats `0.0` as
unset and substitutes the default `0.3` (cutoff 1.7). -/
theorem claim_C1_counterexample :
    retrieve_relevant false
        (fun _ _ => [(⟨"มาตรา 5", some "law.pdf", some "2"⟩, (9 : ℚ) / 5)])
        "q" none (some 0) = []
      ∧ ((9 : ℚ) / 5) < 2 - 0 := by
  constructor
  · simp only [retrieve_relevant, retrieve_with_scores,
      similarity_search_with_score, pyOrQ, pyOrNat, RETRIEVAL_THRESHOLD]
    norm_num [List.filter_cons]
  · norm_num

/-- C1 (amended): for every fixed index result, `retrieve_relevant` keeps a
chunk iff its distance < 2 − t_eff, where t_eff is the given threshold when
it is nonzero and the default `RETRIEVAL_THRESHOLD = 0.3` when the threshold
is omitted — a threshold of `0.0` is treated as unset and behaves like the
default (cutoff 1.7, not 2.0) — and the kept set is antitone in the
threshold over positive thresholds. -/
theorem claim_C1_threshold_conversion_amended
    (backend : String → Nat → List (LDoc × ℚ)) (q : String) (k : Option Nat)
    (t t1 t2 : ℚ) (ht : t ≠ 0) (h1 : 0 < t1) (h12 : t1 ≤ t2) :
    retrieve_relevant false backend q k (some t)
        = ((retrieve_with_scores false backend q k).filter
            (fun p => decide (p.2 < 2 - t))).map (fun p => p.1)
      ∧ retrieve_relevant false backend q k none
          = ((retrieve_with_scores false backend q k).filter
              (fun p => decide (p.2 < 2 - RETRIEVAL_THRESHOLD))).map
              (fun p => p.1)
      ∧ retrieve_relevant false backend q k (some 0)
          = retrieve_relevant false backend q k none
      ∧ (retrieve_relevant false backend q k (some t2)).length
          ≤ (retrieve_relevant false backend q k (some t1)).length := by
  have ht1 : t1 ≠ 0 := h1.ne'
  have ht2 : t2 ≠ 0 := (lt_of_lt_of_le h1 h12).ne'
  refine ⟨?_, ?_, ?_, ?_⟩
  · simp only [retrieve_relevant, pyOrQ, if_neg ht]
  · simp only [retrieve_relevant, pyOrQ]
  · simp only [retrieve_relevant, pyOrQ, if_pos rfl, if_true]
  · simp only [retrieve_relevant, pyOrQ, if_neg ht1, if_neg ht2,
      List.length_map]
    refine List.Sublist.length_le (List.monotone_filter_right _ ?_)
    intro a ha
    simp only [decide_eq_true_eq] at ha ⊢
    linarith

/-- Witness for C1 (amended), at the two-chunk index result
[distance 1/2, distance 8/5] with thresholds 1/2 ≤ 1. -/
def c1WitnessBackend : String → Nat → List (LDoc × ℚ) :=
  fun _ _ =>
    [(⟨"มาตรา 1", some "law.pdf", some "1"⟩, (1 : ℚ) / 2),
     (⟨"มาตรา 2", some "law.pdf", some "2"⟩, (8 : ℚ) / 5)]

/-- C1 witness: the amended theorem instantiated at `c1WitnessBackend`,
threshold 1/2, and the antitone pair 1/2 ≤ 1. -/
theorem claim_C1_witness :
    (((1 : ℚ) / 2 ≠ 0) ∧ (0 : ℚ) < 1 / 2 ∧ ((1 : ℚ) / 2 ≤ 1))
      ∧ (retrieve_relevant false c1WitnessBackend "q" none (some (1 / 2))
            = ((retrieve_with_scores false c1WitnessBackend "q" none).filter
                (fun p => decide (p.2 < 2 - 1 / 2))).map (fun p => p.1)
          ∧ retrieve_relevant false c1WitnessBackend "q" none none
              = ((retrieve_with_scores false c1WitnessBackend "q" none).filter
                  (fun p => decide (p.2 < 2 - RETRIEVAL_THRESHOLD))).map
                  (fun p => p.1)
          ∧ retrieve_relevant false c1WitnessBackend "q" none (some 0)
              = retrieve_relevant false c1WitnessBackend "q" none none
          ∧ (retrieve_relevant false c1WitnessBackend "q" none
                (some 1)).length
              ≤ (retrieve_relevant false c1WitnessBackend "q" none
                  (some (1 / 2))).length) :=
  ⟨by norm_num,
   claim_C1_threshold_conversion_amended c1WitnessBackend "q" none
     (1 / 2) (1 / 2) 1 (by norm_num) (by norm_num) (by norm_num)⟩

/-- C5: every chunk surviving `clean_chunks` — the list `ingest_file` hands to
the vector index — has content that is non-whitespace (stripping it leaves a
nonempty string) and is the cleaned content of one of the input chunks:
whitespace-only-after-cleaning chunks never reach the embedding/indexing
step. -/
theorem claim_C5_empty_chunk_exclusion (chunks : List LDoc) (d : LDoc)
    (hd : d ∈ clean_chunks chunks) :
    (stripList d.content.data).isEmpty = false
      ∧ ∃ c ∈ chunks, d.content = cleanString c.content := by
  induction chunks with
  | nil => simp [clean_chunks] at hd
  | cons c rest ih =>
    simp only [clean_chunks] at hd
    by_cases h : (stripList (cleanString c.content).data).isEmpty = true
    · rw [if_pos h] at hd
      obtain ⟨h1, c', hc', he⟩ := ih hd
      exact ⟨h1, c', List.mem_cons_of_mem _ hc', he⟩
    · rw [if_neg h] at hd
      rw [Bool.not_eq_true] at h
      rcases List.mem_cons.mp hd with rfl | hmem
      · exact ⟨h, c, List.mem_cons_self _ _, rfl⟩
      · obtain ⟨h1, c', hc', he⟩ := ih hmem
        exact ⟨h1, c', List.mem_cons_of_mem _ hc', he⟩

/-- An ingestion batch for the C5 witness: one real chunk and one
whitespace-only chunk. -/
def c5Chunks : List LDoc :=
  [⟨"  hello  ", some "a.pdf", some "1"⟩, ⟨"   ", some "a.pdf", some "1"⟩]

/-- The surviving chunk of `c5Chunks` (content cleaned to `"hello"`). -/
def c5Doc : LDoc := ⟨"hello", some "a.pdf", some "1"⟩

/-- C5 witness: the theorem instantiated at `c5Chunks` — the whitespace-only
chunk is dropped and the surviving chunk satisfies the invariant. -/
theorem claim_C5_witness :
    c5Doc ∈ clean_chunks c5Chunks
      ∧ ((stripList c5Doc.content.data).isEmpty = false
         ∧ ∃ c ∈ c5Chunks, c5Doc.content = cleanString c.content) :=
  ⟨by decide, claim_C5_empty_chunk_exclusion c5Chunks c5Doc (by decide)⟩

/-- On a collection with distinct ids, membership of an entry's id among the
ids of the matching entries is exactly the matching predicate. -/
theorem contains_matching_id (db : List Entry) (name : String)
    (hids : (db.map (fun e => e.id)).Nodup) :
    ∀ e ∈ db,
      (((matchingEntries db name).map (fun x => x.id)).contains e.id)
        = decide (e.source = some name) := by
  intro e he
  by_cases hs : e.source = some name
  · have hm : e ∈ matchingEntries db name :=
      List.mem_filter.mpr ⟨he, by simp [hs]⟩
    have : e.id ∈ (matchingEntries db name).map (fun x => x.id) :=
      List.mem_map.mpr ⟨e, hm, rfl⟩
    simp [List.elem_iff, this, hs]
  · have : e.id ∉ (matchingEntries db name).map (fun x => x.id) := by
      intro hmem
      obtain ⟨e2, he2, hid⟩ := List.mem_map.mp hmem
      have he2db : e2 ∈ db := (List.mem_filter.mp he2).1
      have he2src : e2.source = some name := by
        have := (List.mem_filter.mp he2).2
        simpa using this
      have : e2 = e := List.inj_on_of_nodup_map hids he2db he hid
      exact hs (this ▸ he2src)
    simp [List.elem_iff, this, hs]

/-- C6: on a collection with distinct ids, `delete_by_source` returns `false`
iff no chunk's `source` metadata equals `source_file` (by exact,
case-sensitive comparison) and `true` iff at least one does; it removes
exactly the matching chunks, so afterwards `get_all_sources` no longer
contains `source_file` and the count has decreased by exactly the number of
matching chunks; and a backend error yields `(unchanged, false)` rather than
an exception. -/
theorem claim_C6_delete_by_source (db : List Entry) (name : String)
    (hids : (db.map (fun e => e.id)).Nodup) :
    ((delete_by_source false db name).2 = false
        ↔ matchingEntries db name = [])
      ∧ ((delete_by_source false db name).2 = true
          ↔ matchingEntries db name ≠ [])
      ∧ (delete_by_source false db name).1
          = db.filter (fun e => !(decide (e.source = some name)))
      ∧ name ∉ get_all_sources false (delete_by_source false db name).1
      ∧ get_document_count false (delete_by_source false db name).1
            + (matchingEntries db name).length
          = get_document_count false db
      ∧ delete_by_source true db name = (db, false) := by
  have hfilter :
      db.filter
          (fun e => !(((matchingEntries db name).map (fun x => x.id)).contains e.id))
        = db.filter (fun e => !(decide (e.source = some name))) :=
    List.filter_congr (fun e he => by
      rw [contains_matching_id db name hids e he])
  have hM : matchingEntries db name = []
      ↔ ((matchingEntries db name).map (fun x => x.id)).isEmpty = true := by
    cases matchingEntries db name <;> simp
  have hresult1 : (delete_by_source false db name).1
      = db.filter (fun e => !(decide (e.source = some name))) := by
    by_cases hm : matchingEntries db name = []
    · have hempty := hM.mp hm
      have hall : ∀ e ∈ db, ¬ e.source = some name := by
        intro e he hs
        have : e ∈ matchingEntries db name :=
          List.mem_filter.mpr ⟨he, by simp [hs]⟩
        simp [hm] at this
      rw [delete_by_source, if_neg (by simp), if_pos hempty]
      have : db.filter (fun e => !(decide (e.source = some name))) = db :=
        List.filter_eq_self.mpr (fun e he => by simp [hall e he])
      rw [this]
    · have hempty : ((matchingEntries db name).map (fun x => x.id)).isEmpty
          = false := by
        rcases h : matchingEntries db name with _ | ⟨a, l⟩
        · exact absurd h hm
        · simp [h]
      rw [delete_by_source, if_neg (by simp), if_neg (by simp [hempty])]
      exact hfilter
  refine ⟨?_, ?_, hresult1, ?_, ?_, rfl⟩
  · by_cases hm : matchingEntries db name = []
    · simp [delete_by_source, hM.mp hm, hm]
    · have hempty : ((matchingEntries db name).map (fun x => x.id)).isEmpty
          = false := by
        rcases h : matchingEntries db name with _ | ⟨a, l⟩
        · exact absurd h hm
        · simp [h]
      simp [delete_by_source, hempty, hm]
  · by_cases hm : matchingEntries db name = []
    · simp [delete_by_source, hM.mp hm, hm]
    · have hempty : ((matchingEntries db name).map (fun x => x.id)).isEmpty
          = false := by
        rcases h : matchingEntries db name with _ | ⟨a, l⟩
        · exact absurd h hm
        · simp [h]
      simp [delete_by_source, hempty, hm]
  · rw [hresult1]
    intro hmem
    simp only [get_all_sources, if_neg (by simp : ¬ false = true),
      List.mem_dedup, List.mem_filterMap] at hmem
    obtain ⟨e, he, hsrc⟩ := hmem
    have := (List.mem_filter.mp he).2
    simp [hsrc] at this
  · rw [hresult1]
    simp only [get_document_count, if_neg (by simp : ¬ false = true),
      matchingEntries]
    have := List.length_eq_length_filter_add
      (l := db) (fun e => decide (e.source = some name))
    omega

/-- A three-chunk collection for the C6 witness: two chunks from `doc.pdf`,
one from `other.pdf`. -/
def c6Db : List Entry :=
  [⟨0, some "doc.pdf"⟩, ⟨1, some "other.pdf"⟩, ⟨2, some "doc.pdf"⟩]

/-- C6 witness: the theorem instantiated at `c6Db` and `"doc.pdf"`. -/
theorem claim_C6_witness :
    (c6Db.map (fun e => e.id)).Nodup
      ∧ (((delete_by_source false c6Db "doc.pdf").2 = false
            ↔ matchingEntries c6Db "doc.pdf" = [])
          ∧ ((delete_by_source false c6Db "doc.pdf").2 = true
              ↔ matchingEntries c6Db "doc.pdf" ≠ [])
          ∧ (delete_by_source false c6Db "doc.pdf").1
              = c6Db.filter (fun e => !(decide (e.source = some "doc.pdf")))
          ∧ "doc.pdf" ∉ get_all_sources false
              (delete_by_source false c6Db "doc.pdf").1
          ∧ get_document_count false (delete_by_source false c6Db "doc.pdf").1
                + (matchingEntries c6Db "doc.pdf").length
              = get_document_count false c6Db
          ∧ delete_by_source true c6Db "doc.pdf" = (c6Db, false)) :=
  ⟨by decide, claim_C6_delete_by_source c6Db "doc.pdf" (by decide)⟩

/-- C7: in the chat flow with a nonempty index and nonempty retrieval, an
always-failing language-model backend (every attempt raises with message `m`)
causes exactly 3 invocation attempts, with the 2 inter-attempt pauses of 3
seconds, and the chat call then returns a chat-level error result:
`success = false`, the error field and the answer carrying the backend's
error message — never a fabricated answer. -/
theorem claim_C7_retry_exhaustion (docCount : Nat)
    (backend : String → Nat → List LDoc)
    (invoke : Nat → Except String String) (q m : String)
    (hdc : 0 < docCount) (hdocs : backend q 4 ≠ [])
    (hinv : ∀ n, invoke n = Except.error m) :
    (chat docCount backend invoke q).2.1 = 3
      ∧ (chat docCount backend invoke q).2.2 = [3, 3]
      ∧ (chat docCount backend invoke q).1.success = false
      ∧ (chat docCount backend invoke q).1.error = some m
      ∧ (chat docCount backend invoke q).1.answer = errAnswer m := by
  have hne : (backend q 4).isEmpty = false := by
    cases h : backend q 4 with
    | nil => exact absurd h hdocs
    | cons a l => rfl
  have hloop : retryLoop invoke 0 3 = (3, [3, 3], Except.error m) := by
    simp [retryLoop, hinv]
  have hchat : chat docCount backend invoke q
      = (⟨false, errAnswer m, [], none, none, some m⟩, 3, [3, 3]) := by
    simp only [chat, if_pos hdc]
    rw [show retrieve false backend q (some NUM_RELEVANT_DOCS) = backend q 4
        from rfl]
    rw [hne, hloop]
    rfl
  rw [hchat]
  exact ⟨rfl, rfl, rfl, rfl, rfl⟩

/-- A one-chunk index result for the C7 witness. -/
def c7Backend : String → Nat → List LDoc :=
  fun _ _ => [⟨"มาตรา 1", some "a.pdf", some "1"⟩]

/-- An always-failing model backend for the C7 witness. -/
def c7Invoke : Nat → Except String String := fun _ => Except.error "boom"

/-- C7 witness: the theorem instantiated at one indexed document and a model
that always raises with message `"boom"`. -/
theorem claim_C7_witness :
    (0 < 1 ∧ c7Backend "q" 4 ≠ [] ∧ (∀ n, c7Invoke n = Except.error "boom"))
      ∧ ((chat 1 c7Backend c7Invoke "q").2.1 = 3
          ∧ (chat 1 c7Backend c7Invoke "q").2.2 = [3, 3]
          ∧ (chat 1 c7Backend c7Invoke "q").1.success = false
          ∧ (chat 1 c7Backend c7Invoke "q").1.error = some "boom"
          ∧ (chat 1 c7Backend c7Invoke "q").1.answer = errAnswer "boom") :=
  ⟨⟨by decide, by decide, fun n => rfl⟩,
   claim_C7_retry_exhaustion 1 c7Backend c7Invoke "q" "boom"
     (by decide) (by decide) (fun n => rfl)⟩

/-- C9: `summarize` passes the literal fan-out `k = 10` to retrieval (not the
configured default of 4); when chunks were retrieved it invokes the model
exactly once — both on success and on failure, with no retry — and on success
returns the model's summary together with the de-duplicated source files of
the retrieved chunks. -/
theorem claim_C9_summarize (backend : String → Nat → List LDoc)
    (invoke invoke2 : Nat → Except String String) (sn : Option String)
    (s e : String)
    (hdocs : backend (summaryQuery sn) 10 ≠ [])
    (hok : invoke 0 = Except.ok s)
    (hfail : invoke2 0 = Except.error e) :
    (summarize backend invoke sn).2.2 = 10
      ∧ (summarize backend invoke sn).2.1 = 1
      ∧ (summarize backend invoke sn).1
          = ⟨true, s,
              ((backend (summaryQuery sn) 10).map
                (fun d => d.source.getD "unknown")).dedup,
              some (backend (summaryQuery sn) 10).length, none⟩
      ∧ ((summarize backend invoke sn).1.sources).Nodup
      ∧ ((summarize backend invoke sn).1.sources).toFinset
          = ((backend (summaryQuery sn) 10).map
              (fun d => d.source.getD "unknown")).toFinset
      ∧ (summarize backend invoke2 sn).2.1 = 1
      ∧ (summarize backend invoke2 sn).1.success = false
      ∧ (summarize backend invoke2 sn).1.error = some e := by
  have hne : (backend (summaryQuery sn) 10).isEmpty = false := by
    cases h : backend (summaryQuery sn) 10 with
    | nil => exact absurd h hdocs
    | cons a l => rfl
  have hs1 : summarize backend invoke sn
      = (⟨true, s,
          ((backend (summaryQuery sn) 10).map
            (fun d => d.source.getD "unknown")).dedup,
          some (backend (summaryQuery sn) 10).length, none⟩, 1, 10) := by
    simp only [summarize]
    rw [show retrieve false backend (summaryQuery sn) (some 10)
        = backend (summaryQuery sn) 10 from rfl]
    rw [hne, hok]
    rfl
  have hs2 : summarize backend invoke2 sn
      = (⟨false, errAnswer e, [], none, some e⟩, 1, 10) := by
    simp only [summarize]
    rw [show retrieve false backend (summaryQuery sn) (some 10)
        = backend (summaryQuery sn) 10 from rfl]
    rw [hne, hfail]
    rfl
  rw [hs1, hs2]
  refine ⟨rfl, rfl, rfl, List.nodup_dedup _, ?_, rfl, rfl, rfl⟩
  exact Finset.ext (fun a => by simp [List.mem_toFinset, List.mem_dedup])

/-- A two-chunk index result with a duplicated source for the C9 witness. -/
def c9Backend : String → Nat → List LDoc :=
  fun _ _ =>
    [⟨"ก", some "law.pdf", some "1"⟩, ⟨"ข", some "law.pdf", some "2"⟩]

/-- A succeeding model backend for the C9 witness. -/
def c9Invoke : Nat → Except String String := fun _ => Except.ok "สรุป"

/-- C9 witness: the theorem instantiated at `c9Backend` (two chunks sharing
one source), a succeeding model, and an always-failing model. -/
theorem claim_C9_witness :
    (c9Backend (summaryQuery none) 10 ≠ []
        ∧ c9Invoke 0 = Except.ok "สรุป"
        ∧ c7Invoke 0 = Except.error "boom")
      ∧ ((summarize c9Backend c9Invoke none).2.2 = 10
          ∧ (summarize c9Backend c9Invoke none).2.1 = 1
          ∧ (summarize c9Backend c9Invoke none).1
              = ⟨true, "สรุป",
                  ((c9Backend (summaryQuery none) 10).map
                    (fun d => d.source.getD "unknown")).dedup,
                  some (c9Backend (summaryQuery none) 10).length, none⟩
          ∧ ((summarize c9Backend c9Invoke none).1.sources).Nodup
          ∧ ((summarize c9Backend c9Invoke none).1.sources).toFinset
              = ((c9Backend (summaryQuery none) 10).map
                  (fun d => d.source.getD "unknown")).toFinset
          ∧ (summarize c9Backend c7Invoke none).2.1 = 1
          ∧ (summarize c9Backend c7Invoke none).1.success = false
          ∧ (summarize c9Backend c7Invoke none).1.error = some "boom") :=
  ⟨⟨by decide, rfl, rfl⟩,
   claim_C9_summarize c9Backend c9Invoke c7Invoke none "สรุป" "boom"
     (by decide) rfl rfl⟩

end LegalAI
